import Mathlib

/-!
Shallow embedding of the job-lifecycle core of `src/main_mac.py`
(PrinterSync macOS print agent) and proofs about it.

Conventions of the embedding:
* Python dictionaries with a fixed set of recognized keys become
  structures of `Option` fields; `dict.get(k, default)` becomes
  `Option.getD`.
* Exceptions become `Except String`; the raised message is the string.
* External effects (the network response, the filesystem, the CUPS
  print subsystem, the Firebase status write-back) are modelled as
  explicit inputs and outputs of the functions that use them.
* Floats produced by `downloaded / total_size` are modelled as `ℚ`;
  every concrete value the claims mention (0.25, 0.5, 0.75, 1.0) is
  exactly representable either way.
-/

/-- A job record snapshot as delivered by the realtime database:
the fields `process_job` / `download_and_print` read from `job_data`.
A missing key is `none`. -/
structure JobRecord where
  status : Option String
  fileUrl : Option String
  printer : Option String
  colorMode : Option String
  orientation : Option String
  paperSize : Option String
deriving DecidableEq, Repr

/-- The payload of a delivered event: either a well-formed dict
(passing Python's `isinstance(job_data, dict)` test) or some other
truthy value. -/
inductive EventData where
  | dict (r : JobRecord)
  | nondict
deriving DecidableEq, Repr

/-- A Firebase listener event as seen by `on_job_added`:
`event_type`, `path`, and `data` (where `none` models falsy data). -/
structure JobEvent where
  event_type : String
  path : String
  data : Option EventData
deriving DecidableEq, Repr

/-- `event.path.lstrip('/')` — drop leading slashes. -/
def lstripSlash (s : String) : String :=
  ⟨s.data.dropWhile (· == '/')⟩

/-- `on_job_added` (main_mac.py lines 738-743): if the event is a
`put` off the root with truthy data, and the data is a dict whose
`status` is `"pending"`, invoke `process_job` on the stripped job key
and the record; otherwise do nothing.  The returned value is the
worker-spawn decision: `some (jobKey, record)` exactly when
`process_job` is called, `none` when the event is ignored (in which
case no worker is spawned and no status is written back, since all
writes happen inside `process_job` and its worker). -/
def on_job_added (e : JobEvent) : Option (String × JobRecord) :=
  if e.event_type = "put" ∧ e.path ≠ "/" ∧ e.data ≠ none then
    match e.data with
    | some (.dict r) =>
      if r.status = some "pending" then some (lstripSlash e.path, r) else none
    | _ => none
  else none

/-- The workers spawned by delivering a list of events to the
listener, in delivery order: one `process_job` invocation per event
that passes the checks of `on_job_added`. -/
def spawnedWorkers (events : List JobEvent) : List (String × JobRecord) :=
  events.filterMap on_job_added

/-- A concrete pending job record used in concrete evaluations. -/
def pendingRecord : JobRecord :=
  ⟨some "pending", some "http://x/doc.pdf", some "HP-1", some "color",
   some "portrait", some "A4"⟩

/-- A concrete `put` event delivering `pendingRecord` under key `J1`. -/
def pendingEvent : JobEvent :=
  ⟨"put", "/J1", some (.dict pendingRecord)⟩

/-- C1 counterexample: `on_job_added` consults no worker registry, so
delivering the same pending upsert twice spawns two workers for the
same job id `J1` — not one, as the claim states. -/
theorem C1_cex_duplicate_pending_spawns_two_workers :
    spawnedWorkers [pendingEvent, pendingEvent] =
      [("J1", pendingRecord), ("J1", pendingRecord)] := by
  decide

/-- C1 amended: the listener performs no per-job deduplication:
delivering the same pending upsert n times spawns exactly n workers
(each of which runs its own processing-to-terminal write sequence). -/
theorem C1_no_dedup_replicate_spawns_n_workers
    (n : Nat) (e : JobEvent) (k : String) (r : JobRecord)
    (h : on_job_added e = some (k, r)) :
    (spawnedWorkers (List.replicate n e)).length = n := by
  induction n with
  | zero => rfl
  | succ m ih =>
    simp only [List.replicate_succ, spawnedWorkers, List.filterMap_cons, h]
    simpa [spawnedWorkers] using ih

/-- C1 amended, witness: delivering the concrete pending event twice
spawns exactly two workers. -/
theorem C1_no_dedup_witness :
    (spawnedWorkers (List.replicate 2 pendingEvent)).length = 2 :=
  C1_no_dedup_replicate_spawns_n_workers 2 pendingEvent "J1" pendingRecord
    (by decide)

/-- C4: any delivered event whose data is not a dict carrying
`status = "pending"` — a non-pending record, a non-dict payload, or
falsy data — is ignored by `on_job_added`: no worker is spawned (and
hence no status is written back). -/
theorem C4_non_pending_ignored
    (e : JobEvent)
    (h : ¬ ∃ r : JobRecord, e.data = some (.dict r) ∧ r.status = some "pending") :
    on_job_added e = none := by
  unfold on_job_added
  by_cases hc : e.event_type = "put" ∧ e.path ≠ "/" ∧ e.data ≠ none
  · simp only [if_pos hc]
    match hd : e.data with
    | none => rfl
    | some .nondict => rfl
    | some (.dict r) =>
      have : ¬ r.status = some "pending" := fun hs => h ⟨r, hd, hs⟩
      simp [this]
  · simp [if_neg hc]

/-- C4 witness: a `put` event carrying a completed record is ignored. -/
theorem C4_witness :
    on_job_added ⟨"put", "/J9", some (.dict ⟨some "completed", none, none, none, none, none⟩)⟩ = none :=
  C4_non_pending_ignored _ (by
    rintro ⟨r, hr, hs⟩
    simp only [Option.some.injEq, EventData.dict.injEq] at hr
    subst hr
    exact absurd hs (by decide))

/-- The progress-reporting loop of `download_file` (lines 115-122):
`downloaded` starts at the accumulator value and grows by each chunk
length as it is written; after each chunk, when `total > 0`, the
callback receives `downloaded / total`.  The result is the list of
fractions passed to the callback, in order. -/
def progressCalls (chunks : List Nat) (downloaded total : Nat) : List ℚ :=
  match chunks with
  | [] => []
  | c :: rest =>
    if 0 < total then
      (((downloaded + c : Nat) : ℚ) / (total : ℚ)) ::
        progressCalls rest (downloaded + c) total
    else progressCalls rest (downloaded + c) total

/-- `download_file` (lines 106-126) over a response modelled by its
HTTP status, optional `content-length` header, and chunk sizes: a
non-200 status raises; otherwise the body is streamed and the list of
progress fractions is produced (with `total_size` defaulting to 0 when
the header is absent). -/
def download_file (status : Nat) (contentLength : Option Nat)
    (chunks : List Nat) : Except String (List ℚ) :=
  if status ≠ 200 then
    .error ("Download failed with status code: " ++ toString status)
  else
    .ok (progressCalls chunks 0 (contentLength.getD 0))

/-- With a zero total size the callback is never invoked. -/
theorem progressCalls_total_zero (chunks : List Nat) (d : Nat) :
    progressCalls chunks d 0 = [] := by
  induction chunks generalizing d with
  | nil => rfl
  | cons c rest ih => simpa [progressCalls] using ih (d + c)

/-- Every reported fraction is bounded below by the fraction already
downloaded and above by the fraction after all remaining chunks. -/
theorem progressCalls_bounds (chunks : List Nat) (d total : Nat)
    (ht : 0 < total) :
    ∀ q ∈ progressCalls chunks d total,
      ((d : ℚ) / (total : ℚ) ≤ q ∧
       q ≤ ((d + chunks.sum : Nat) : ℚ) / (total : ℚ)) := by
  induction chunks generalizing d with
  | nil => intro q hq; exact absurd hq (by simp [progressCalls])
  | cons c rest ih =>
    intro q hq
    have htq : (0 : ℚ) < (total : ℚ) := by exact_mod_cast ht
    rw [progressCalls, if_pos ht] at hq
    rcases List.mem_cons.mp hq with h | h
    · subst h
      constructor
      · exact (div_le_div_iff_of_pos_right htq).mpr (Nat.cast_le.mpr (Nat.le_add_right d c))
      · refine (div_le_div_iff_of_pos_right htq).mpr (Nat.cast_le.mpr ?_)
        simp only [List.sum_cons]
        omega
    · obtain ⟨h1, h2⟩ := ih (d + c) q h
      constructor
      · exact le_trans
          ((div_le_div_iff_of_pos_right htq).mpr (Nat.cast_le.mpr (Nat.le_add_right d c))) h1
      · refine le_trans h2 ((div_le_div_iff_of_pos_right htq).mpr (Nat.cast_le.mpr ?_))
        simp only [List.sum_cons]
        omega

/-- The fractions reported by the download loop are monotonically
non-decreasing, in order of invocation. -/
theorem progressCalls_chain (chunks : List Nat) (d total : Nat)
    (ht : 0 < total) :
    List.Chain' (· ≤ ·) (progressCalls chunks d total) := by
  induction chunks generalizing d with
  | nil => simp [progressCalls]
  | cons c rest ih =>
    rw [progressCalls, if_pos ht]
    refine List.chain'_cons'.mpr ⟨?_, ih (d + c)⟩
    intro y hy
    exact (progressCalls_bounds rest (d + c) total ht y
      (List.mem_of_mem_head? hy)).1

/-- C5: over a 200 response whose content-length reports a known
positive total covering all delivered chunks, the progress fractions
are monotonically non-decreasing and each lies in the closed interval
from 0 to 1; when the content-length is absent or zero, the callback
is never invoked and the fetch still succeeds. -/
theorem C5_progress_contract (cl : Option Nat) (chunks : List Nat) :
    (∀ n : Nat, cl = some n → 0 < n → chunks.sum ≤ n →
      download_file 200 cl chunks = .ok (progressCalls chunks 0 n) ∧
      List.Chain' (· ≤ ·) (progressCalls chunks 0 n) ∧
      ∀ q ∈ progressCalls chunks 0 n, 0 ≤ q ∧ q ≤ 1) ∧
    ((cl = none ∨ cl = some 0) → download_file 200 cl chunks = .ok []) := by
  constructor
  · rintro n rfl hn hsum
    refine ⟨by simp [download_file], progressCalls_chain chunks 0 n hn, ?_⟩
    intro q hq
    obtain ⟨h1, h2⟩ := progressCalls_bounds chunks 0 n hn q hq
    have hnq : (0 : ℚ) < (n : ℚ) := by exact_mod_cast hn
    constructor
    · simpa using h1
    · refine le_trans h2 ?_
      rw [div_le_one hnq]
      have hs : 0 + chunks.sum ≤ n := by omega
      exact_mod_cast hs
  · rintro (rfl | rfl) <;> simp [download_file, progressCalls_total_zero]

/-- C5 witness: the 4×250-byte stream over a 1000-byte total has
non-decreasing progress, and a fetch without content-length succeeds
with no progress callbacks. -/
theorem C5_progress_contract_witness :
    List.Chain' (· ≤ ·) (progressCalls [250, 250, 250, 250] 0 1000) ∧
    download_file 200 none [100, 200] = .ok [] :=
  ⟨((C5_progress_contract (some 1000) [250, 250, 250, 250]).1 1000 rfl
      (by decide) (by decide)).2.1,
   (C5_progress_contract none [100, 200]).2 (Or.inl rfl)⟩

/-- C6: a 1000-byte payload with content-length 1000 delivered as 4
chunks of 250 bytes invokes the progress callback exactly four times,
with 0.25, 0.5, 0.75, 1.0 in that order. -/
theorem C6_quarter_progress :
    download_file 200 (some 1000) [250, 250, 250, 250] =
      .ok [(1 : ℚ)/4, 1/2, 3/4, 1] := by
  norm_num [download_file, progressCalls]

/-- `download_pdf_from_url` (lines 128-135) resolves the save path as
`os.path.join` of the absolute downloads directory with the job key
followed by the `.pdf` suffix; the absolute directory is a parameter
of the model. -/
def downloadTargetPath (destDirAbs fileKey : String) : String :=
  destDirAbs ++ "/" ++ fileKey ++ ".pdf"

/-- C8: for a fixed downloads directory the target path depends only
on the job id and is injective in it: equal ids give the same path
(so a re-fetch overwrites), distinct ids give distinct paths. -/
theorem C8_target_path_injective (destDirAbs k1 k2 : String) :
    downloadTargetPath destDirAbs k1 = downloadTargetPath destDirAbs k2 ↔
      k1 = k2 := by
  constructor
  · intro h
    have hd := congrArg String.data h
    simp only [downloadTargetPath, String.data_append, List.append_assoc] at hd
    have h1 := List.append_cancel_left hd
    have h2 := List.append_cancel_left h1
    have h3 := List.append_cancel_right h2
    exact String.ext h3
  · intro h
    rw [h]

/-- C8 witness: the concrete job ids J1 and J2 resolve to distinct
paths under the same downloads directory. -/
theorem C8_target_path_witness :
    downloadTargetPath "/agent/downloads" "J1" ≠
      downloadTargetPath "/agent/downloads" "J2" :=
  fun h =>
    absurd ((C8_target_path_injective "/agent/downloads" "J1" "J2").mp h)
      (by decide)

/-- Python's `str.strip()` whitespace test, over its ASCII whitespace
characters (space, tab, newline, carriage return, vertical tab, form
feed). -/
def pyIsSpace (c : Char) : Bool :=
  c == ' ' || c == '\t' || c == '\n' || c == '\r' ||
    c == Char.ofNat 11 || c == Char.ofNat 12

/-- `str.strip()`: drop whitespace from both ends. -/
def pyStrip (s : String) : String :=
  ⟨((s.data.dropWhile pyIsSpace).reverse.dropWhile pyIsSpace).reverse⟩

/-- `save_token` (lines 192-199): write the token as the whole content
of the single token file.  The filesystem is modelled as the optional
content of that file; the write replaces whatever was there. -/
def save_token (t : String) (_tokenFile : Option String) : Option String :=
  some t

/-- `load_token` (lines 201-210): when the token file exists, return
its content stripped of surrounding whitespace; when it does not
exist, return `None` rather than raising. -/
def load_token (tokenFile : Option String) : Option String :=
  match tokenFile with
  | some s => some (pyStrip s)
  | none => none

/-- C9: saving a token and loading it back yields the token with
surrounding whitespace stripped, and loading with no token file
present yields `none` (not connected) without raising. -/
theorem C9_token_roundtrip (t : String) (fs : Option String) :
    load_token (save_token t fs) = some (pyStrip t) ∧
      load_token none = none :=
  ⟨rfl, rfl⟩

/-- C9 witness: a concrete token surrounded by whitespace round-trips
to its stripped form. -/
theorem C9_token_roundtrip_witness :
    load_token (save_token "  tok42\n" none) = some "tok42" := by
  rw [(C9_token_roundtrip "  tok42\n" none).1]
  decide

/-- Print settings as read by `auto_print_pdf` via `settings.get`:
the recognized keys of the dispatcher's input dict, plus `copies`,
which the spec lists as recognized.  A missing key is `none`. -/
structure Settings where
  namePrinter : Option String
  colorMode : Option String
  orientation : Option String
  paperSize : Option String
  copies : Option Nat
deriving DecidableEq, Repr

/-- ASCII lower-casing of one character, as `str.lower()` acts on the
ASCII strings the code compares against. -/
def lowerChar (c : Char) : Char :=
  if 'A' ≤ c ∧ c ≤ 'Z' then Char.ofNat (c.toNat + 32) else c

/-- ASCII `str.lower()` over the characters of a string. -/
def lowerStr (s : String) : String :=
  ⟨s.data.map lowerChar⟩

/-- The CUPS option dict built by `auto_print_pdf` (lines 163-182), in
insertion order: `colorMode` selects `ColorModel` RGB/Gray,
`orientation` selects `orientation-requested` 3/4, a non-empty
`paperSize` selects `media`.  No other key of the settings dict is
read. -/
def buildOptions (settings : Settings) : List (String × String) :=
  let colorOpts :=
    let cm := lowerStr (settings.colorMode.getD "")
    if cm = "color" then [("ColorModel", "RGB")]
    else if cm = "grayscale" then [("ColorModel", "Gray")]
    else []
  let orientOpts :=
    let o := lowerStr (settings.orientation.getD "")
    if o = "portrait" then [("orientation-requested", "3")]
    else if o = "landscape" then [("orientation-requested", "4")]
    else []
  let mediaOpts :=
    let p := settings.paperSize.getD ""
    if p ≠ "" then [("media", p)] else []
  colorOpts ++ orientOpts ++ mediaOpts

/-- The responses of the CUPS subsystem during one dispatch:
`defaultPrinters` is the outcome of the `cups.Connection()` /
`getPrinters()` pair run outside the try block when no printer name is
given (lines 152-154); `printFileResult` is the outcome of the
connection and `printFile` call inside the try block (lines 162-184),
yielding the assigned CUPS job id on acceptance. -/
structure CupsEnv where
  defaultPrinters : Except String (List String)
  printFileResult : Except String Nat
deriving Repr

/-- A call made to the print subsystem, recorded for the claims about
whether the subsystem is invoked at all. -/
inductive CupsCall where
  | lookupDefault
  | printFile (printerName filePath title : String)
      (options : List (String × String))
deriving DecidableEq, Repr

/-- The try block around `conn.printFile` (lines 161-189): acceptance
returns True, any raised error is logged and mapped to False. -/
def tryPrintFile (env : CupsEnv) : Except String Bool :=
  match env.printFileResult with
  | .ok _jobId => .ok true
  | .error _e => .ok false

/-- The recorded `printFile` invocation with the title and options the
code passes. -/
def printFileCall (printerName filePath : String) (settings : Settings) :
    CupsCall :=
  .printFile printerName filePath "PrinterSync Job" (buildOptions settings)

/-- `auto_print_pdf` (lines 147-189): with an empty printer name the
default printer is looked up outside the try block — a raised error
there propagates, and an empty printer list returns False; otherwise
the file is dispatched inside the try block.  Returns the result and
the list of subsystem calls made. -/
def auto_print_pdf (filePath : String) (settings : Settings)
    (env : CupsEnv) : Except String Bool × List CupsCall :=
  if settings.namePrinter.getD "" = "" then
    match env.defaultPrinters with
    | .error e => (.error e, [.lookupDefault])
    | .ok [] => (.ok false, [.lookupDefault])
    | .ok (p :: _) =>
      (tryPrintFile env, [.lookupDefault, printFileCall p filePath settings])
  else
    (tryPrintFile env,
     [printFileCall (settings.namePrinter.getD "") filePath settings])

/-- `print_pdf` (lines 140-145): a missing file returns False before
any subsystem call; otherwise defer to `auto_print_pdf`. -/
def print_pdf (settings : Settings) (filePath : String)
    (fileExists : String → Bool) (env : CupsEnv) :
    Except String Bool × List CupsCall :=
  if fileExists filePath then auto_print_pdf filePath settings env
  else (.ok false, [])

/-- The dispatcher input of the C3 scenario: grayscale, landscape, A4,
two copies. -/
def graySettings : Settings :=
  ⟨some "HP-1", some "grayscale", some "landscape", some "A4", some 2⟩

/-- C3 counterexample: on the grayscale/landscape/A4/copies-2 input
the option set passed to CUPS carries only the color, rotation and
media keys — the `copies` key is omitted, so the documented mapping is
not produced "without omission". -/
theorem C3_cex_copies_omitted :
    (buildOptions graySettings).map Prod.fst =
      ["ColorModel", "orientation-requested", "media"] ∧
    ¬ "copies" ∈ (buildOptions graySettings).map Prod.fst := by
  decide

/-- C3 amended: grayscale selects the Gray color plane, landscape
selects rotated orientation 4, A4 selects the media — but the copies
count is not read by this dispatcher and is absent from the option
set. -/
theorem C3_option_mapping :
    buildOptions graySettings =
      [("ColorModel", "Gray"), ("orientation-requested", "4"),
       ("media", "A4")] := by
  decide

/-- A settings dict with no printer name, as built when the job record
has no `printer` key. -/
def noPrinterSettings : Settings :=
  ⟨some "", some "color", some "portrait", some "A4", none⟩

/-- A settings dict naming a printer explicitly. -/
def namedPrinterSettings : Settings :=
  ⟨some "HP-1", some "color", some "portrait", some "A4", none⟩

/-- A CUPS subsystem whose connection raises during the default-printer
lookup. -/
def brokenCups : CupsEnv :=
  ⟨.error "cups connection failed", .ok 1⟩

/-- A CUPS subsystem whose `printFile` call raises. -/
def failingPrintCups : CupsEnv :=
  ⟨.ok ["HP-1"], .error "printer error"⟩

/-- C7 counterexample: with no printer name, the `cups.Connection()`
default-printer lookup runs outside the try block (line 153), so an
error raised there propagates out of `auto_print_pdf` instead of being
mapped to False. -/
theorem C7_cex_lookup_error_propagates :
    (auto_print_pdf "/agent/downloads/J1.pdf" noPrinterSettings
        brokenCups).1 = .error "cups connection failed" := by
  rfl

/-- C7 amended: `auto_print_pdf` returns True only when the CUPS
`printFile` call reports acceptance with a job id; and whenever a
printer name is specified, every error raised by the print call is
caught and mapped to False (only the default-printer lookup taken when
no name is given can propagate an error). -/
theorem C7_dispatch_error_mapping
    (filePath : String) (settings : Settings) (env : CupsEnv) :
    ((auto_print_pdf filePath settings env).1 = .ok true →
      ∃ jobId, env.printFileResult = .ok jobId) ∧
    (settings.namePrinter.getD "" ≠ "" →
      (∀ e, env.printFileResult = .error e →
        (auto_print_pdf filePath settings env).1 = .ok false) ∧
      (∀ jobId, env.printFileResult = .ok jobId →
        (auto_print_pdf filePath settings env).1 = .ok true)) := by
  have htrue : tryPrintFile env = .ok true →
      ∃ jobId, env.printFileResult = .ok jobId := by
    intro h
    cases hpf : env.printFileResult with
    | ok j => exact ⟨j, rfl⟩
    | error e => simp [tryPrintFile, hpf] at h
  constructor
  · intro h
    unfold auto_print_pdf at h
    by_cases hpn : settings.namePrinter.getD "" = ""
    · rw [if_pos hpn] at h
      cases hdp : env.defaultPrinters with
      | error e => rw [hdp] at h; simp at h
      | ok ps =>
        cases ps with
        | nil => rw [hdp] at h; simp at h
        | cons p rest => rw [hdp] at h; exact htrue h
    · rw [if_neg hpn] at h
      exact htrue h
  · intro hpn
    constructor
    · intro e he
      unfold auto_print_pdf
      rw [if_neg hpn]
      simp [tryPrintFile, he]
    · intro jobId hj
      unfold auto_print_pdf
      rw [if_neg hpn]
      simp [tryPrintFile, hj]

/-- C7 amended, witness: a named printer whose `printFile` raises
yields False, and an accepted print with job id yields True. -/
theorem C7_dispatch_witness :
    (auto_print_pdf "/agent/downloads/J1.pdf" namedPrinterSettings
        failingPrintCups).1 = .ok false ∧
    (auto_print_pdf "/agent/downloads/J1.pdf" namedPrinterSettings
        ⟨.ok ["HP-1"], .ok 7⟩).1 = .ok true :=
  ⟨((C7_dispatch_error_mapping "/agent/downloads/J1.pdf"
        namedPrinterSettings failingPrintCups).2 (by decide)).1
      "printer error" rfl,
   ((C7_dispatch_error_mapping "/agent/downloads/J1.pdf"
        namedPrinterSettings ⟨.ok ["HP-1"], .ok 7⟩).2 (by decide)).2
      7 rfl⟩

/-- C10: when the file does not exist, `print_pdf` returns False and
makes no call to the print subsystem, whatever the settings and
whatever the subsystem would answer. -/
theorem C10_missing_file_no_dispatch
    (settings : Settings) (filePath : String)
    (fileExists : String → Bool) (env : CupsEnv)
    (h : fileExists filePath = false) :
    print_pdf settings filePath fileExists env = (.ok false, []) := by
  simp [print_pdf, h]

/-- C10 witness: on an empty filesystem the concrete dispatch returns
False with no subsystem call, even though the subsystem would accept. -/
theorem C10_missing_file_witness :
    print_pdf namedPrinterSettings "/agent/downloads/J1.pdf"
      (fun _ => false) ⟨.ok ["HP-1"], .ok 7⟩ = (.ok false, []) :=
  C10_missing_file_no_dispatch namedPrinterSettings "/agent/downloads/J1.pdf"
    (fun _ => false) ⟨.ok ["HP-1"], .ok 7⟩ rfl

/-- The `printer_settings` dict built by `download_and_print`
(lines 858-863) from the job record, with the code's defaults. -/
def printerSettingsOf (jobData : JobRecord) : Settings :=
  ⟨some (jobData.printer.getD ""), some (jobData.colorMode.getD "color"),
   some (jobData.orientation.getD "portrait"),
   some (jobData.paperSize.getD "A4"), none⟩

/-- The final per-job status update written back to the source: a
status string and an optional error detail. -/
structure StatusWrite where
  status : String
  errorDetail : Option String
deriving DecidableEq, Repr

/-- The external effects one worker run depends on: the outcome of the
artifact fetch, the absolute downloads directory, the filesystem seen
by `print_pdf`, and the CUPS subsystem. -/
structure WorkerEnv where
  fetchResult : Except String Unit
  destDirAbs : String
  fileExists : String → Bool
  cups : CupsEnv

/-- `download_and_print` (lines 848-884): fetch the artifact to the
job's target path, then dispatch it; write back `completed` when the
dispatcher returns True, status `error` with detail `Printing failed`
when it returns False, and status `error` with the exception string
when the fetch (or anything else in the try block) raises.  The result
is the final status write. -/
def download_and_print (jobData : JobRecord) (jobKey : String)
    (env : WorkerEnv) : StatusWrite :=
  match env.fetchResult with
  | .error e => ⟨"error", some e⟩
  | .ok () =>
    let localFile := downloadTargetPath env.destDirAbs jobKey
    match (print_pdf (printerSettingsOf jobData) localFile
        env.fileExists env.cups).1 with
    | .error e => ⟨"error", some e⟩
    | .ok true => ⟨"completed", none⟩
    | .ok false => ⟨"error", some "Printing failed"⟩

/-- A worker environment whose artifact fetch raises. -/
def fetchFailEnv : WorkerEnv :=
  ⟨.error "Download failed with status code: 404", "/agent/downloads",
   fun _ => true, ⟨.ok ["HP-1"], .ok 7⟩⟩

/-- A worker environment where fetch and dispatch both succeed. -/
def happyWorkerEnv : WorkerEnv :=
  ⟨.ok (), "/agent/downloads", fun _ => true, ⟨.ok ["HP-1"], .ok 7⟩⟩

/-- C2 counterexample: when the fetch raises, the job's status is
written as `error`, not `failed` as the claim states (the error detail
is persisted). -/
theorem C2_cex_fetch_failure_status_is_error :
    (download_and_print pendingRecord "J1" fetchFailEnv).status ≠ "failed" ∧
    download_and_print pendingRecord "J1" fetchFailEnv =
      ⟨"error", some "Download failed with status code: 404"⟩ := by
  constructor
  · decide
  · rfl

/-- C2 amended: a fetch failure writes status `error` with the raised
error detail persisted; a successful fetch maps the dispatcher's True
to `completed` and its False to status `error` with detail
`Printing failed`. -/
theorem C2_terminal_status_mapping
    (jobData : JobRecord) (jobKey : String) (env : WorkerEnv) :
    (∀ m, env.fetchResult = .error m →
      download_and_print jobData jobKey env = ⟨"error", some m⟩) ∧
    (env.fetchResult = .ok () →
      ((print_pdf (printerSettingsOf jobData)
          (downloadTargetPath env.destDirAbs jobKey)
          env.fileExists env.cups).1 = .ok true →
        download_and_print jobData jobKey env = ⟨"completed", none⟩) ∧
      ((print_pdf (printerSettingsOf jobData)
          (downloadTargetPath env.destDirAbs jobKey)
          env.fileExists env.cups).1 = .ok false →
        download_and_print jobData jobKey env =
          ⟨"error", some "Printing failed"⟩)) := by
  constructor
  · intro m hm
    simp [download_and_print, hm]
  · intro hok
    constructor
    · intro hp
      simp [download_and_print, hok, hp]
    · intro hp
      simp [download_and_print, hok, hp]

/-- C2 amended, witness: with fetch and dispatch succeeding the final
status is `completed`. -/
theorem C2_terminal_status_witness :
    download_and_print pendingRecord "J1" happyWorkerEnv =
      ⟨"completed", none⟩ :=
  ((C2_terminal_status_mapping pendingRecord "J1" happyWorkerEnv).2
      rfl).1 (by rfl)
